import Mathlib

/-
Shallow embedding of `src/main.py`, the FastAPI speech-to-text backend.

Modelling conventions:
- Python exceptions observed at the handler boundary are `PyExc`: either a
  FastAPI `HTTPException` (status code, detail string) or any other exception
  carrying its `str()` message.
- `os.getenv` results are `Option String` fields of `Env` (a variable set to
  the empty string is `some ""`, an unset variable is `none`), matching
  Python where `os.getenv` returns `None` when unset and truthiness treats
  `""` as falsy.
- The whisper model and the anthropic messages API are external collaborators;
  they appear as oracle parameters (`load_model`, `modelTranscribe`, `api`).
  The `api` oracle receives exactly the arguments `client.messages.create` is
  called with, so theorems can speak about what is sent over the network, and
  the handler records the list of API calls it made.
- Filesystem behaviour of `/transcribe` is modelled by `FileFaults` (fault
  injection for `audio.read()` / `tmp.write()` / `os.unlink`) and a
  `TranscribeTrace` recording whether the temp file was created, whether it
  still exists when the handler exits, and how many transcriptions / model
  loads happened.  Python `try/finally` semantics are kept: an exception
  raised by the `finally:` block replaces the outcome determined before it.
-/

/-- A Python exception as observed at the handler boundary: a FastAPI
`HTTPException` with status code and detail, or any other exception with its
message (the `raise` sites of `src/main.py`). -/
inductive PyExc where
  | http : Nat → String → PyExc
  | other : String → PyExc
deriving DecidableEq

/-- Python `str(e)`: a starlette/FastAPI `HTTPException` prints as
`"{status_code}: {detail}"` (with the braces filled in); any other exception
prints its message. -/
def strOfExc : PyExc → String
  | .http code detail => toString code ++ ": " ++ detail
  | .other msg => msg

/-- The environment variables `src/main.py` reads via `os.getenv`. -/
structure Env where
  WHISPER_MODEL : Option String
  ANTHROPIC_API_KEY : Option String
deriving DecidableEq

/-- Index of the last occurrence of `c` in `cs`, or `none` (Python
`str.rfind` restricted to single characters, with `-1` mapped to `none`). -/
def lastIndexOf : List Char → Char → Option Nat
  | [], _ => none
  | x :: xs, c =>
    match lastIndexOf xs c with
    | some i => some (i + 1)
    | none => if x = c then some 0 else none

/-- `os.path.splitext` (posixpath): split off the extension beginning at the
last dot of the final path component, provided some earlier character of that
component is not a dot (so `".bashrc"` has no extension). -/
def splitext (p : String) : String × String :=
  let cs := p.data
  let sepIndex := lastIndexOf cs '/'
  let dotIndex := lastIndexOf cs '.'
  match dotIndex with
  | none => (p, "")
  | some d =>
    let start := match sepIndex with
      | none => 0
      | some i => i + 1
    if start ≤ d then
      if ((List.range (d - start)).map (fun k => cs.getD (start + k) '.')).any
          (fun ch => ch != '.') then
        (⟨cs.take d⟩, ⟨cs.drop d⟩)
      else (p, "")
    else (p, "")

/-- The dict `model.transcribe(tmp_path)` returns: `result["text"]` and the
optional `result.get("language", ...)` entry. -/
structure WhisperResult where
  text : String
  language : Option String
deriving DecidableEq

/-- `get_whisper_model` (src/main.py lines 36-40): lazy initialization of the
module-global `whisper_model`.  State-passing version for sequential
executions: takes the current global, returns the model handed to the caller,
the new global, and how many `whisper.load_model` calls were made. -/
def get_whisper_model {Model : Type} (load_model : String → Model) (env : Env)
    (whisper_model : Option Model) : Model × Option Model × Nat :=
  match whisper_model with
  | some m => (m, some m, 0)
  | none =>
    let m := load_model (env.WHISPER_MODEL.getD "base")
    (m, some m, 1)

/-- `get_claude_client` (src/main.py lines 45-50): raises
`HTTPException(500, "ANTHROPIC_API_KEY not configured")` when the key is unset
or empty (Python falsiness), else returns the client (modelled by the key). -/
def get_claude_client (env : Env) : Except PyExc String :=
  match env.ANTHROPIC_API_KEY with
  | none => .error (.http 500 "ANTHROPIC_API_KEY not configured")
  | some api_key =>
    if api_key = "" then .error (.http 500 "ANTHROPIC_API_KEY not configured")
    else .ok api_key

/-- The `/enhance` request body (pydantic `EnhanceRequest`). -/
structure EnhanceRequest where
  text : String
  task : String := "cleanup"
deriving DecidableEq

/-- One content block of an anthropic API response (`message.content[i]`). -/
structure ContentBlock where
  text : String
deriving DecidableEq

/-- The arguments `enhance_text` passes to `client.messages.create`: the model
identifier, `max_tokens`, and the single user message's content string. -/
structure ApiCall where
  model : String
  max_tokens : Nat
  content : String
deriving DecidableEq

/-- The JSON object a successful `/enhance` returns. -/
structure EnhanceResponse where
  success : Bool
  original : String
  enhanced : String
  task : String
deriving DecidableEq

/-- The `"cleanup"` instruction string of the `prompts` dict. -/
def cleanupInstruction : String :=
  "Clean up this transcribed speech. Fix grammar, punctuation, and formatting while preserving the original meaning. Return only the cleaned text:"

/-- The `"summarize"` instruction string of the `prompts` dict. -/
def summarizeInstruction : String :=
  "Summarize this transcribed speech concisely, capturing the key points:"

/-- The `"action_items"` instruction string of the `prompts` dict. -/
def actionItemsInstruction : String :=
  "Extract action items and key tasks from this transcribed speech. Format as a bullet list:"

/-- The `"format"` instruction string of the `prompts` dict. -/
def formatInstruction : String :=
  "Format this transcribed speech into well-structured paragraphs with proper punctuation and headings where appropriate:"

/-- The `prompts` dict of `enhance_text` (src/main.py lines 93-98), as an
association list in source order. -/
def prompts : List (String × String) :=
  [("cleanup", cleanupInstruction),
   ("summarize", summarizeInstruction),
   ("action_items", actionItemsInstruction),
   ("format", formatInstruction)]

/-- `prompts.get(request.task, prompts["cleanup"])` (src/main.py line 100). -/
def promptsGet (task : String) : String :=
  (prompts.lookup task).getD cleanupInstruction

/-- `enhance_text` (src/main.py lines 90-121).  Returns the handler outcome
together with the list of API calls actually issued.  Faithful detail: the
whole body of the `try:` is wrapped by `except Exception`, which also catches
the `HTTPException` raised by `get_claude_client`, re-raising it as
`HTTPException(500, "Enhancement failed: " + str(e))`; `message.content[0]`
on an empty content list raises `IndexError("list index out of range")`,
likewise caught and wrapped. -/
def enhance_text (env : Env) (api : ApiCall → Except String (List ContentBlock))
    (request : EnhanceRequest) : Except PyExc EnhanceResponse × List ApiCall :=
  let prompt := promptsGet request.task
  match get_claude_client env with
  | .error e => (.error (.http 500 ("Enhancement failed: " ++ strOfExc e)), [])
  | .ok _client =>
    let call : ApiCall :=
      { model := "claude-opus-4-5-20250514", max_tokens := 1024,
        content := prompt ++ "\n\n" ++ request.text }
    match api call with
    | .error apiErr => (.error (.http 500 ("Enhancement failed: " ++ apiErr)), [call])
    | .ok [] =>
      (.error (.http 500 ("Enhancement failed: " ++ "list index out of range")), [call])
    | .ok (b :: _) =>
      (.ok { success := true, original := request.text, enhanced := b.text,
             task := request.task }, [call])

/-- The `/transcribe` upload (`UploadFile`): an optional filename and the
bytes `await audio.read()` yields. -/
structure Audio where
  filename : Option String
  content : String
deriving DecidableEq

/-- Fault injection for the filesystem steps of `transcribe_audio`: a `some`
message means the corresponding call (`await audio.read()`, `tmp.write`,
`os.unlink`) raises an exception with that message. -/
structure FileFaults where
  readError : Option String
  writeError : Option String
  unlinkError : Option String
deriving DecidableEq

/-- Observable filesystem / model effects of one `transcribe_audio` run:
whether the temp file was created, whether it still exists on disk when the
handler exits, and how many `model.transcribe` / `whisper.load_model` calls
occurred. -/
structure TranscribeTrace where
  tempCreated : Bool
  tempRemains : Bool
  transcribeCalls : Nat
  loads : Nat
deriving DecidableEq

/-- The JSON object a successful `/transcribe` returns. -/
structure TranscribeResponse where
  success : Bool
  text : String
  language : String
deriving DecidableEq

/-- `transcribe_audio` (src/main.py lines 63-87).  `tmpName` is the
uniqueness-generating temp-file facility (suffix to path).  Control flow kept
from the source: the filename check precedes temp-file creation; the
`NamedTemporaryFile(delete=False)` block (read + write) precedes the
`try:`, so an exception there propagates with the file already on disk and
the `finally:` never runs; the `try:` body loads/reuses the model and
transcribes, `except Exception` wraps any failure there as
`HTTPException(500, "Transcription failed: " + str(e))`; the `finally:`
unlinks the temp file, and if the unlink itself raises, that exception
replaces whatever outcome (return value or raised `HTTPException`) was
already determined, leaving the file on disk. -/
def transcribe_audio {Model : Type} (load_model : String → Model)
    (modelTranscribe : Model → String → Except String WhisperResult)
    (env : Env) (faults : FileFaults) (tmpName : String → String)
    (whisper_model : Option Model) (audio : Audio) :
    Except PyExc TranscribeResponse × Option Model × TranscribeTrace :=
  if audio.filename.getD "" = "" then
    (.error (.http 400 "No audio file provided"), whisper_model,
     ⟨false, false, 0, 0⟩)
  else
    let ext := (splitext (audio.filename.getD "")).2
    let suffix := if ext = "" then ".wav" else ext
    let tmp_path := tmpName suffix
    match faults.readError with
    | some msg => (.error (.other msg), whisper_model, ⟨true, true, 0, 0⟩)
    | none =>
      match faults.writeError with
      | some msg => (.error (.other msg), whisper_model, ⟨true, true, 0, 0⟩)
      | none =>
        let r := get_whisper_model load_model env whisper_model
        let outcome : Except PyExc TranscribeResponse :=
          match modelTranscribe r.1 tmp_path with
          | .ok result =>
            .ok { success := true, text := result.text,
                  language := result.language.getD "unknown" }
          | .error msg => .error (.http 500 ("Transcription failed: " ++ msg))
        match faults.unlinkError with
        | some msg => (.error (.other msg), r.2.1, ⟨true, true, 1, r.2.2⟩)
        | none => (outcome, r.2.1, ⟨true, false, 1, r.2.2⟩)

/-- The JSON object a successful `/transcribe-and-enhance` returns. -/
structure CombinedResponse where
  success : Bool
  raw_transcription : String
  enhanced_text : String
  language : String
  task : String
deriving DecidableEq

/-- `transcribe_and_enhance` (src/main.py lines 124-143): awaits
`transcribe_audio` on the upload, builds an `EnhanceRequest` from its `text`
and the caller's `task`, awaits `enhance_text`, and assembles the combined
response; an exception from either step propagates unchanged. -/
def transcribe_and_enhance {Model : Type} (load_model : String → Model)
    (modelTranscribe : Model → String → Except String WhisperResult)
    (env : Env) (faults : FileFaults) (tmpName : String → String)
    (api : ApiCall → Except String (List ContentBlock))
    (whisper_model : Option Model) (audio : Audio) (task : String) :
    Except PyExc CombinedResponse × Option Model × TranscribeTrace × List ApiCall :=
  let tr := transcribe_audio load_model modelTranscribe env faults tmpName
    whisper_model audio
  match tr.1 with
  | .error e => (.error e, tr.2.1, tr.2.2, [])
  | .ok transcription =>
    let enhance_request : EnhanceRequest := { text := transcription.text, task := task }
    let er := enhance_text env api enhance_request
    match er.1 with
    | .error e => (.error e, tr.2.1, tr.2.2, er.2)
    | .ok enhanced =>
      (.ok { success := true, raw_transcription := transcription.text,
             enhanced_text := enhanced.enhanced, language := transcription.language,
             task := task }, tr.2.1, tr.2.2, er.2)

/-- `n` sequential invocations of `get_whisper_model` starting from the
initial module state `whisper_model = None`: returns the final global state
and the total number of `whisper.load_model` calls. -/
def seqCalls {Model : Type} (load_model : String → Model) (env : Env) :
    Nat → Option Model × Nat
  | 0 => (none, 0)
  | n + 1 =>
    let p := seqCalls load_model env n
    let r := get_whisper_model load_model env p.1
    (r.2.1, p.2 + r.2.2)

/-- Program counter of one request thread executing `get_whisper_model`
(src/main.py lines 36-40) at statement granularity: about to test
`whisper_model is None`, about to run `whisper_model = whisper.load_model(...)`
after having observed `None`, or finished. -/
inductive InitPC where
  | check
  | load
  | done
deriving DecidableEq

/-- Shared state of two request threads racing through the unguarded lazy
initialization: the module-global `whisper_model` (models are labelled by
`Nat`), the number of `whisper.load_model` invocations so far, and each
thread's program counter. -/
structure InitState where
  whisper_model : Option Nat
  loads : Nat
  pc1 : InitPC
  pc2 : InitPC
deriving DecidableEq

/-- One atomic step of a thread at program counter `pc`: the `is None` test
reads the global and branches; the load step performs the load (counted) and
writes the global.  `loaded` is the model value `whisper.load_model`
returns. -/
def threadStep (loaded : Nat) (pc : InitPC) (s : InitState) : InitPC × InitState :=
  match pc with
  | .check =>
    match s.whisper_model with
    | none => (.load, s)
    | some _ => (.done, s)
  | .load => (.done, { s with whisper_model := some loaded, loads := s.loads + 1 })
  | .done => (.done, s)

/-- Run one interleaving step: `tid = true` advances thread 1, `tid = false`
advances thread 2. -/
def initStep (loaded : Nat) (tid : Bool) (s : InitState) : InitState :=
  if tid then
    let r := threadStep loaded s.pc1 s
    { r.2 with pc1 := r.1 }
  else
    let r := threadStep loaded s.pc2 s
    { r.2 with pc2 := r.1 }

/-- Run a whole schedule (list of thread choices) from a state. -/
def initRun (loaded : Nat) (sched : List Bool) (s : InitState) : InitState :=
  sched.foldl (fun acc t => initStep loaded t acc) s

/-- Fixture: environment with neither variable set. -/
def envA : Env := { WHISPER_MODEL := none, ANTHROPIC_API_KEY := none }

/-- Fixture: environment with the API key configured. -/
def envKey : Env := { WHISPER_MODEL := none, ANTHROPIC_API_KEY := some "sk-test" }

/-- Fixture: a whisper model (on the trivial model type) whose transcription
always succeeds with text `"hello world"`, language `"en"`. -/
def okTranscribe : Unit → String → Except String WhisperResult :=
  fun _ _ => .ok { text := "hello world", language := some "en" }

/-- Fixture: a temp-path facility. -/
def tmpA : String → String := fun suffix => "/tmp/tmpabc" ++ suffix

/-- Fixture: a named, well-formed audio upload. -/
def audioA : Audio := { filename := some "a.wav", content := "RIFFdata" }

/-- Fixture: no filesystem call fails. -/
def noFaults : FileFaults := { readError := none, writeError := none, unlinkError := none }

/-- Fixture: an API oracle that succeeds with one content block. -/
def apiOk : ApiCall → Except String (List ContentBlock) :=
  fun _ => .ok [{ text := "Enhanced." }]

/-- Fixture: an API oracle whose call raises. -/
def apiBoom : ApiCall → Except String (List ContentBlock) := fun _ => .error "boom"

/-- String append is left-cancellative (via the underlying character lists). -/
theorem string_append_left_cancel {s t u : String} (h : s ++ t = s ++ u) : t = u := by
  have hd : (s ++ t).data = (s ++ u).data := by rw [h]
  rw [String.data_append, String.data_append] at hd
  exact String.ext (List.append_cancel_left hd)

/-- C1: the claim says a temp-file deletion failure after the handler's
outcome is determined is never surfaced and never changes that outcome.  The
code puts a bare `os.unlink(tmp_path)` in the `finally:` block, so when the
unlink raises, its exception replaces the already-determined outcome and
propagates to the caller (and nothing is logged).  Concretely: with a
successful transcription, the fault-free run returns the success response,
while the identical run whose unlink raises "Operation not permitted" makes
the handler raise that exception instead of returning the response. -/
theorem unlink_failure_replaces_outcome :
    (transcribe_audio (fun _ : String => ()) okTranscribe envA noFaults tmpA
        none audioA).1 =
      .ok { success := true, text := "hello world", language := "en" } ∧
    (transcribe_audio (fun _ : String => ()) okTranscribe envA
        { noFaults with unlinkError := some "Operation not permitted" } tmpA
        none audioA).1 =
      .error (.other "Operation not permitted") :=
  ⟨rfl, rfl⟩

/-- C5: the claim says the temp file no longer exists after the handler
returns on every exit path, including unexpected failures.  But reading the
upload body (`await audio.read()`) happens after `NamedTemporaryFile(
delete=False)` has created the file and before the `try/finally` is entered,
so if the read raises, the handler exits with the temp file still on disk
(created and never deleted), refuting the claim on that exit path. -/
theorem read_failure_leaks_temp_file :
    (transcribe_audio (fun _ : String => ()) okTranscribe envA
        { noFaults with readError := some "client disconnected" } tmpA
        none audioA).2.2 =
      { tempCreated := true, tempRemains := true, transcribeCalls := 0, loads := 0 } ∧
    (transcribe_audio (fun _ : String => ()) okTranscribe envA
        { noFaults with readError := some "client disconnected" } tmpA
        none audioA).1 =
      .error (.other "client disconnected") :=
  ⟨rfl, rfl⟩

/-- C6: the claim says concurrent first-time callers perform exactly one
model load.  The lazy initialization in `get_whisper_model` is unguarded: the
`whisper_model is None` test and the `whisper_model = whisper.load_model(...)`
assignment are separate steps on a shared global.  Under the interleaving
check₁, check₂, load₁, load₂ both threads observe `None` and both load: the
run ends with both threads finished and `loads = 2`, refuting single-flight
initialization. -/
theorem unguarded_lazy_init_double_load :
    (initRun 7 [true, false, true, false] ⟨none, 0, .check, .check⟩).loads = 2 ∧
    (initRun 7 [true, false, true, false] ⟨none, 0, .check, .check⟩).pc1 = .done ∧
    (initRun 7 [true, false, true, false] ⟨none, 0, .check, .check⟩).pc2 = .done :=
  ⟨rfl, rfl, rfl⟩

/-- C2: a `/enhance` request made while `ANTHROPIC_API_KEY` is absent (unset
or empty) fails before any network call — the list of API calls issued is
empty — with a 500 whose detail carries the configuration-specific message
(`get_claude_client` raises `HTTPException(500, "ANTHROPIC_API_KEY not
configured")`, which the handler's `except Exception` re-wraps as
`"Enhancement failed: 500: ANTHROPIC_API_KEY not configured"`), and that
detail is distinguishable from the detail of an API-call failure, which is
`"Enhancement failed: "` followed by the API error's message. -/
theorem missing_api_key_fails_fast (env : Env)
    (api : ApiCall → Except String (List ContentBlock)) (request : EnhanceRequest)
    (h : env.ANTHROPIC_API_KEY = none ∨ env.ANTHROPIC_API_KEY = some "") :
    (enhance_text env api request).2 = [] ∧
    (enhance_text env api request).1 =
      .error (.http 500 "Enhancement failed: 500: ANTHROPIC_API_KEY not configured") ∧
    ∀ apiErr : String, apiErr ≠ "500: ANTHROPIC_API_KEY not configured" →
      Except.error (PyExc.http 500 ("Enhancement failed: " ++ apiErr)) ≠
        (enhance_text env api request).1 := by
  have hcl : get_claude_client env =
      .error (.http 500 "ANTHROPIC_API_KEY not configured") := by
    rcases h with h | h <;> simp [get_claude_client, h]
  have he : enhance_text env api request =
      (.error (.http 500 ("Enhancement failed: " ++
        strOfExc (.http 500 "ANTHROPIC_API_KEY not configured"))), []) := by
    simp [enhance_text, hcl]
  rw [he]
  refine ⟨rfl, rfl, ?_⟩
  intro apiErr hne heq
  simp only [Except.error.injEq, PyExc.http.injEq, true_and] at heq
  exact hne ((string_append_left_cancel heq).trans rfl)

/-- Witness for C2 at a concrete input: with no key configured and an API
oracle that would fail, the handler issues no API call and raises the
configuration-specific 500. -/
theorem missing_api_key_fails_fast_witness :
    (enhance_text envA apiBoom { text := "hi", task := "cleanup" }).2 = [] ∧
    (enhance_text envA apiBoom { text := "hi", task := "cleanup" }).1 =
      .error (.http 500 "Enhancement failed: 500: ANTHROPIC_API_KEY not configured") :=
  ⟨(missing_api_key_fails_fast envA apiBoom { text := "hi", task := "cleanup" }
      (Or.inl rfl)).1,
   (missing_api_key_fails_fast envA apiBoom { text := "hi", task := "cleanup" }
      (Or.inl rfl)).2.1⟩

/-- C4: the `prompts` table of `enhance_text` has exactly four entries with
keys `cleanup`, `summarize`, `action_items`, `format`; each recognized task
selects its own fixed instruction; and `prompts.get(task, prompts["cleanup"])`
makes every unrecognized task silently select the cleanup instruction — the
selection is a total function, so no error is raised for unknown tasks. -/
theorem task_instruction_mapping :
    prompts.length = 4 ∧
    prompts.map Prod.fst = ["cleanup", "summarize", "action_items", "format"] ∧
    (promptsGet "cleanup" = cleanupInstruction ∧
     promptsGet "summarize" = summarizeInstruction ∧
     promptsGet "action_items" = actionItemsInstruction ∧
     promptsGet "format" = formatInstruction) ∧
    ∀ task : String, task ∉ prompts.map Prod.fst →
      promptsGet task = cleanupInstruction := by
  refine ⟨rfl, rfl, ⟨rfl, rfl, rfl, rfl⟩, ?_⟩
  intro task h
  simp [prompts] at h
  obtain ⟨h1, h2, h3, h4⟩ := h
  have e1 : (task == "cleanup") = false := beq_eq_false_iff_ne.mpr h1
  have e2 : (task == "summarize") = false := beq_eq_false_iff_ne.mpr h2
  have e3 : (task == "action_items") = false := beq_eq_false_iff_ne.mpr h3
  have e4 : (task == "format") = false := beq_eq_false_iff_ne.mpr h4
  simp [promptsGet, prompts, List.lookup, e1, e2, e3, e4]

/-- Witness for C4 at a concrete unrecognized task value. -/
theorem task_instruction_mapping_witness :
    promptsGet "story_mode" = cleanupInstruction :=
  task_instruction_mapping.2.2.2 "story_mode" (by decide)

/-- C7: in a sequential execution the first invocation of
`get_whisper_model` loads the model (with the configured size, default
`"base"`) and sets the global; after any positive number of sequential
invocations from the initial empty state exactly one load has happened and
the global holds that model; and an invocation on an already-set global
returns it unchanged with no load. -/
theorem model_loaded_once_sequentially {Model : Type} (load_model : String → Model)
    (env : Env) (n : Nat) (hn : 1 ≤ n) :
    seqCalls load_model env n =
      (some (load_model (env.WHISPER_MODEL.getD "base")), 1) ∧
    ∀ m : Model, get_whisper_model load_model env (some m) = (m, some m, 0) := by
  have key : ∀ k : Nat, seqCalls load_model env (k + 1) =
      (some (load_model (env.WHISPER_MODEL.getD "base")), 1) := by
    intro k
    induction k with
    | zero => rfl
    | succ j ih =>
      have step : seqCalls load_model env (j + 1 + 1) =
          (let p := seqCalls load_model env (j + 1)
           let r := get_whisper_model load_model env p.1
           (r.2.1, p.2 + r.2.2)) := rfl
      rw [step, ih]
      rfl
  obtain ⟨k, rfl⟩ : ∃ k, n = k + 1 := ⟨n - 1, by omega⟩
  exact ⟨key k, fun m => rfl⟩

/-- Witness for C7: three sequential calls from the empty state perform
exactly one load. -/
theorem model_loaded_once_sequentially_witness :
    seqCalls (fun s : String => s.length) envA 3 = (some ("base".length), 1) :=
  (model_loaded_once_sequentially (fun s : String => s.length) envA 3 (by decide)).1

/-- C9: a `/transcribe` request whose upload has no filename (absent or
empty, the Python falsy cases) returns `HTTPException(400, "No audio file
provided")` with no temp file created, no transcription attempted, no model
load, and the model global untouched. -/
theorem no_filename_rejected_early {Model : Type} (load_model : String → Model)
    (modelTranscribe : Model → String → Except String WhisperResult)
    (env : Env) (faults : FileFaults) (tmpName : String → String)
    (whisper_model : Option Model) (audio : Audio)
    (h : audio.filename = none ∨ audio.filename = some "") :
    transcribe_audio load_model modelTranscribe env faults tmpName
        whisper_model audio =
      (.error (.http 400 "No audio file provided"), whisper_model,
       ⟨false, false, 0, 0⟩) := by
  rcases h with h | h <;> simp [transcribe_audio, h]

/-- Witness for C9 at a concrete upload without filename. -/
theorem no_filename_rejected_early_witness :
    transcribe_audio (fun _ : String => ()) okTranscribe envA noFaults tmpA none
        { filename := none, content := "x" } =
      (.error (.http 400 "No audio file provided"), none, ⟨false, false, 0, 0⟩) :=
  no_filename_rejected_early (fun _ : String => ()) okTranscribe envA noFaults
    tmpA none { filename := none, content := "x" } (Or.inl rfl)

/-- C8: with a configured key, `enhance_text` issues exactly one API call,
whose model identifier is the fixed `"claude-opus-4-5-20250514"`, whose
`max_tokens` is the fixed 1024, and whose content is exactly the selected
instruction, a blank line (`"\n\n"`), then the verbatim input text; and when
that call returns content blocks, the response's `enhanced` field is the
text of the first block. -/
theorem enhance_api_call_shape (env : Env)
    (api : ApiCall → Except String (List ContentBlock)) (request : EnhanceRequest)
    (k : String) (hk : env.ANTHROPIC_API_KEY = some k) (hke : k ≠ "") :
    (enhance_text env api request).2 =
      [{ model := "claude-opus-4-5-20250514", max_tokens := 1024,
         content := promptsGet request.task ++ "\n\n" ++ request.text }] ∧
    ∀ b : ContentBlock, ∀ rest : List ContentBlock,
      api { model := "claude-opus-4-5-20250514", max_tokens := 1024,
            content := promptsGet request.task ++ "\n\n" ++ request.text } =
        .ok (b :: rest) →
      (enhance_text env api request).1 =
        .ok { success := true, original := request.text, enhanced := b.text,
              task := request.task } := by
  have hcl : get_claude_client env = .ok k := by
    simp [get_claude_client, hk, hke]
  constructor
  · cases hapi : api (⟨"claude-opus-4-5-20250514", 1024,
        promptsGet request.task ++ "\n\n" ++ request.text⟩ : ApiCall) with
    | error msg => simp [enhance_text, hcl, hapi]
    | ok blocks => cases blocks <;> simp [enhance_text, hcl, hapi]
  · intro b rest hapi
    simp [enhance_text, hcl, hapi]

/-- Witness for C8 at a concrete request: the single API call carries the
fixed model, 1024 max tokens, and the summarize instruction, blank line,
input text; the first content block's text becomes `enhanced`. -/
theorem enhance_api_call_shape_witness :
    (enhance_text envKey apiOk { text := "notes", task := "summarize" }).2 =
      [{ model := "claude-opus-4-5-20250514", max_tokens := 1024,
         content := promptsGet "summarize" ++ "\n\n" ++ "notes" }] ∧
    (enhance_text envKey apiOk { text := "notes", task := "summarize" }).1 =
      .ok { success := true, original := "notes", enhanced := "Enhanced.",
            task := "summarize" } :=
  ⟨(enhance_api_call_shape envKey apiOk { text := "notes", task := "summarize" }
      "sk-test" rfl (by decide)).1,
   (enhance_api_call_shape envKey apiOk { text := "notes", task := "summarize" }
      "sk-test" rfl (by decide)).2 { text := "Enhanced." } [] rfl⟩

/-- C10: whenever `/enhance` succeeds, the response's `original` field is the
request's text verbatim and its `task` field is the caller's task string
verbatim — `enhance_text` returns `request.text` and `request.task`
unchanged, independently of which instruction the task selected. -/
theorem enhance_echoes_original_and_task (env : Env)
    (api : ApiCall → Except String (List ContentBlock)) (request : EnhanceRequest)
    (r : EnhanceResponse) (h : (enhance_text env api request).1 = .ok r) :
    r.original = request.text ∧ r.task = request.task := by
  cases hcl : get_claude_client env with
  | error e => simp [enhance_text, hcl] at h
  | ok k =>
    cases hapi : api (⟨"claude-opus-4-5-20250514", 1024,
        promptsGet request.task ++ "\n\n" ++ request.text⟩ : ApiCall) with
    | error msg => simp [enhance_text, hcl, hapi] at h
    | ok blocks =>
      cases blocks with
      | nil => simp [enhance_text, hcl, hapi] at h
      | cons b rest =>
        simp [enhance_text, hcl, hapi] at h
        subst h
        exact ⟨rfl, rfl⟩

/-- Witness for C10 at a concrete request whose task is unrecognized: the
response still reports the caller's task string. -/
theorem enhance_echoes_original_and_task_witness :
    ({ success := true, original := "hi", enhanced := "Enhanced.",
       task := "story_mode" } : EnhanceResponse).original = "hi" ∧
    ({ success := true, original := "hi", enhanced := "Enhanced.",
       task := "story_mode" } : EnhanceResponse).task = "story_mode" :=
  enhance_echoes_original_and_task envKey apiOk
    { text := "hi", task := "story_mode" }
    { success := true, original := "hi", enhanced := "Enhanced.",
      task := "story_mode" } (by rfl)

/-- C3: a successful `/transcribe-and-enhance` is the sequential composition
of the two standalone handlers: there are a transcription response `t` and an
enhancement response `e` such that the standalone `transcribe_audio` on the
same audio (same state and oracles) yields `t`, the standalone `enhance_text`
on `t.text` with the caller's task yields `e`, and the combined response's
`raw_transcription` is `t.text`, its `enhanced_text` is `e.enhanced` (and its
`language` and `task` are `t.language` and the caller's task). -/
theorem composition_equivalence {Model : Type} (load_model : String → Model)
    (modelTranscribe : Model → String → Except String WhisperResult)
    (env : Env) (faults : FileFaults) (tmpName : String → String)
    (api : ApiCall → Except String (List ContentBlock))
    (whisper_model : Option Model) (audio : Audio) (task : String)
    (c : CombinedResponse)
    (h : (transcribe_and_enhance load_model modelTranscribe env faults tmpName
            api whisper_model audio task).1 = .ok c) :
    ∃ t : TranscribeResponse, ∃ e : EnhanceResponse,
      (transcribe_audio load_model modelTranscribe env faults tmpName
          whisper_model audio).1 = .ok t ∧
      (enhance_text env api { text := t.text, task := task }).1 = .ok e ∧
      c.raw_transcription = t.text ∧ c.enhanced_text = e.enhanced ∧
      c.language = t.language ∧ c.task = task := by
  cases htr : (transcribe_audio load_model modelTranscribe env faults tmpName
      whisper_model audio).1 with
  | error e0 => simp [transcribe_and_enhance, htr] at h
  | ok t =>
    cases hen : (enhance_text env api { text := t.text, task := task }).1 with
    | error e0 => simp [transcribe_and_enhance, htr, hen] at h
    | ok e =>
      simp [transcribe_and_enhance, htr, hen] at h
      subst h
      exact ⟨t, e, rfl, hen, rfl, rfl, rfl, rfl⟩

/-- Witness for C3 at a concrete audio, task, and succeeding oracles. -/
theorem composition_equivalence_witness :
    ∃ t : TranscribeResponse, ∃ e : EnhanceResponse,
      (transcribe_audio (fun _ : String => ()) okTranscribe envKey noFaults
          tmpA none audioA).1 = .ok t ∧
      (enhance_text envKey apiOk { text := t.text, task := "summarize" }).1 = .ok e ∧
      ({ success := true, raw_transcription := "hello world",
         enhanced_text := "Enhanced.", language := "en",
         task := "summarize" } : CombinedResponse).raw_transcription = t.text ∧
      ({ success := true, raw_transcription := "hello world",
         enhanced_text := "Enhanced.", language := "en",
         task := "summarize" } : CombinedResponse).enhanced_text = e.enhanced ∧
      ({ success := true, raw_transcription := "hello world",
         enhanced_text := "Enhanced.", language := "en",
         task := "summarize" } : CombinedResponse).language = t.language ∧
      ({ success := true, raw_transcription := "hello world",
         enhanced_text := "Enhanced.", language := "en",
         task := "summarize" } : CombinedResponse).task = "summarize" :=
  composition_equivalence (fun _ : String => ()) okTranscribe envKey noFaults
    tmpA apiOk none audioA "summarize"
    { success := true, raw_transcription := "hello world",
      enhanced_text := "Enhanced.", language := "en", task := "summarize" }
    (by rfl)

